import Mathlib

/-!
Shallow embedding of the arbitrage-trading extensions of this repository:
- `controllers/generic/arbitrage_controller.py` (ArbitrageController and its config validator),
- `scripts/v2_with_controllers.py` (GenericV2StrategyWithCashOut),
- `scripts/xarby.py` (the standalone Xarby strategy).

Python `Decimal` values and timestamps are embedded as `ℚ`; the host's
`filter_executors` helper is `List.filter`; mutable object state is passed
explicitly.  Host-framework collaborators that the claims depend on (the
pydantic constructor of `ArbitrageExecutorConfig`, `Decimal(str)`, the host
`controller.stop()` transition) are modelled as explicit parameters or
spec-modelled definitions, marked as such below.
-/

/-- A venue/pair identifier (`hummingbot.strategy_v2.executors.data_types.ConnectorPair`). -/
structure ConnectorPair where
  connector_name : String
  trading_pair : String
deriving DecidableEq

/-- Snapshot of one executor as seen through the controller's `executors_info`
(host-supplied): identifier, creation timestamp, activity flag, trading flag. -/
structure ExecutorInfo where
  id : String
  timestamp : ℚ
  is_active : Bool
  is_trading : Bool
deriving DecidableEq

/-- The fields of `ArbitrageControllerConfig` that the decision logic reads. -/
structure ArbitrageControllerConfig where
  id : String
  source_connector_name : String
  source_trading_pair : String
  dest_connector_name : String
  dest_trading_pair : String
  position_size_quote : ℚ
  min_profitability : ℚ
  target_max_executors : ℚ
  executor_refresh_time : ℚ
deriving DecidableEq

/-- The request descriptor built by `get_executor_config`
(`hummingbot...ArbitrageExecutorConfig`, external value type). -/
structure ArbitrageExecutorConfig where
  controller_id : String
  timestamp : ℚ
  buying_market : ConnectorPair
  selling_market : ConnectorPair
  order_amount : ℚ
  min_profitability : ℚ
deriving DecidableEq

/-- The host market-data provider as the controller reads it: a mid-price per
pair, an available balance per connector and asset, and the host clock. -/
structure MarketDataProvider where
  price : ConnectorPair → ℚ
  available_balance : String → String → ℚ
  time : ℚ

/-- One controller instance together with everything the host supplies to it
during a single evaluation cycle.  `mkOk` — Modelled from the spec: the
pydantic constructor of the external `ArbitrageExecutorConfig` may fail
validation ("Any constructor failure … is caught, logged, and treated as
absent"); on success the constructed object carries exactly the given fields.
It is embedded as a host-supplied validation predicate. -/
structure ControllerState where
  config : ArbitrageControllerConfig
  executors_info : List ExecutorInfo
  provider : MarketDataProvider
  mkOk : ArbitrageExecutorConfig → Bool

/-- `trading_pair.split("-")[1]`: the quote asset of a `BASE-QUOTE` pair. -/
def quoteAsset (pair : String) : String :=
  (pair.splitOn "-").getD 1 ""

/-- `ArbitrageController.get_market_price`. -/
def get_market_price (s : ControllerState) (pair : ConnectorPair) : ℚ :=
  s.provider.price pair

/-- The source `ConnectorPair` held by the controller (`self.source_connector`). -/
def source_connector (s : ControllerState) : ConnectorPair :=
  ⟨s.config.source_connector_name, s.config.source_trading_pair⟩

/-- The mid price read at the top of `get_executor_config`. -/
def sourcePrice (s : ControllerState) : ℚ :=
  get_market_price s (source_connector s)

/-- `quote_asset_for_buying_exchange` in `get_executor_config`: the available
balance of the source pair's quote asset on the source connector. -/
def sourceQuoteBalance (s : ControllerState) : ℚ :=
  s.provider.available_balance s.config.source_connector_name
    (quoteAsset s.config.source_trading_pair)

/-- The `ArbitrageExecutorConfig` literal built inside `get_executor_config`. -/
def builtConfig (s : ControllerState) : ArbitrageExecutorConfig :=
  { controller_id := s.config.id
    timestamp := s.provider.time
    buying_market := ⟨s.config.source_connector_name, s.config.source_trading_pair⟩
    selling_market := ⟨s.config.dest_connector_name, s.config.dest_trading_pair⟩
    order_amount := s.config.position_size_quote
    min_profitability := s.config.min_profitability }

/-- `ArbitrageController.get_executor_config`: absent on insufficient quote
balance, and absent when the constructor fails; otherwise the built config. -/
def get_executor_config (s : ControllerState) : Option ArbitrageExecutorConfig :=
  if s.config.position_size_quote * sourcePrice s > sourceQuoteBalance s then
    none
  else if s.mkOk (builtConfig s) then
    some (builtConfig s)
  else
    none

/-- `ArbitrageController.running_executors_count`: length of
`filter_executors(executors_info, fun x => not x.is_active)`. -/
def running_executors_count (s : ControllerState) : Nat :=
  (s.executors_info.filter (fun x => !x.is_active)).length

/-- The two action kinds the system emits (`CreateExecutorAction` /
`StopExecutorAction`).  The create action's config field is optional because
`create_actions_proposal` passes a fresh `get_executor_config()` result. -/
inductive ExecutorAction where
  | create (executor_config : Option ArbitrageExecutorConfig) (controller_id : String)
  | stop (controller_id : String) (executor_id : String)
deriving DecidableEq

/-- `ArbitrageController.create_actions_proposal`: under the concurrency cap,
check one call of `get_executor_config` for presence and, if present, emit a
create action whose payload is a second call of `get_executor_config`. -/
def create_actions_proposal (s : ControllerState) : List ExecutorAction :=
  if (running_executors_count s : ℚ) < s.config.target_max_executors then
    match get_executor_config s with
    | some _ => [ExecutorAction.create (get_executor_config s) s.config.id]
    | none => []
  else
    []

/-- The filter lambda of `executors_to_refresh`: not trading, active, and
older than `executor_refresh_time`. -/
def refreshPred (s : ControllerState) (x : ExecutorInfo) : Bool :=
  !x.is_trading && x.is_active &&
    decide (s.provider.time - x.timestamp > s.config.executor_refresh_time)

/-- `ArbitrageController.executors_to_refresh`: one stop action per executor
selected by `refreshPred`. -/
def executors_to_refresh (s : ControllerState) : List ExecutorAction :=
  (s.executors_info.filter (refreshPred s)).map
    (fun e => ExecutorAction.stop s.config.id e.id)

/-- `ArbitrageController.stop_actions_proposal`. -/
def stop_actions_proposal (s : ControllerState) : List ExecutorAction :=
  executors_to_refresh s

/-- `ArbitrageController.determine_executor_actions`. -/
def determine_executor_actions (s : ControllerState) : List ExecutorAction :=
  create_actions_proposal s ++ stop_actions_proposal s

/-- A value supplied to the pydantic validator for `position_size_quote` /
`min_profitability`: either a string or an already-numeric decimal. -/
inductive FieldValue where
  | str (s : String)
  | dec (q : ℚ)
deriving DecidableEq

/-- `ArbitrageControllerConfig.validate_decimal_fields`.  `parse` — Modelled
from the spec: Python's `Decimal(str)` constructor (standard library, not in
this repository) parses a string to a decimal or raises; it is embedded as a
host-supplied partial parse function, `Except.error` standing for the raised
exception.  `Except.ok none` is Python `None` (absent). -/
def validate_decimal_fields (parse : String → Option ℚ) :
    FieldValue → Except Unit (Option FieldValue)
  | FieldValue.str v =>
      if v = "" then Except.ok none
      else
        match parse v with
        | some q => Except.ok (some (FieldValue.dec q))
        | none => Except.error ()
  | v => Except.ok (some v)

/-- `hummingbot.strategy_v2.models.base.RunnableStatus` (the two values this
system observes and triggers). -/
inductive RunnableStatus where
  | RUNNING
  | TERMINATED
deriving DecidableEq

/-- One controller as the runner observes it: identifier, lifecycle status,
and the `manual_kill_switch` flag of its config. -/
structure Controller where
  id : String
  status : RunnableStatus
  manual_kill_switch : Bool
deriving DecidableEq

/-- Modelled from the spec: the host `controller.stop()` transition of the
external controller base class — "`RUNNING` → `TERMINATED` (on stop)". -/
def controller_stop (c : Controller) : Controller :=
  { c with status := RunnableStatus.TERMINATED }

/-- One executor as the runner sees it through `get_all_executors()`. -/
structure RunnerExecutorInfo where
  id : String
  controller_id : String
  status : RunnableStatus
  is_trading : Bool
deriving DecidableEq

/-- The mutable state of `GenericV2StrategyWithCashOut` together with the
host-supplied data one call reads: `current_timestamp`, the `controllers`
mapping (in iteration order) and the `get_all_executors()` snapshot. -/
structure RunnerState where
  cashing_out : Bool
  cash_out_time : Option ℚ
  current_timestamp : ℚ
  controllers : List Controller
  executors : List RunnerExecutorInfo
deriving DecidableEq

/-- Python truthiness of `self.cash_out_time` in
`if self.cash_out_time and ...`: `None` and `0` are falsy. -/
def cashOutTimeTruthy : Option ℚ → Bool
  | none => false
  | some t => decide (t ≠ 0)

/-- `GenericV2StrategyWithCashOut.evaluate_cash_out_time`.  Returns the new
runner state and the ids of the controllers whose `stop()` was requested. -/
def evaluate_cash_out_time (s : RunnerState) : RunnerState × List String :=
  if cashOutTimeTruthy s.cash_out_time &&
      decide (s.current_timestamp ≥ s.cash_out_time.getD 0) &&
      !s.cashing_out then
    ({ s with
        controllers := s.controllers.map
          (fun c => if c.status = RunnableStatus.RUNNING then controller_stop c else c)
        cashing_out := true },
     (s.controllers.filter (fun c => decide (c.status = RunnableStatus.RUNNING))).map
       (fun c => c.id))
  else
    (s, [])

/-- `GenericV2StrategyWithCashOut.check_executors_status`.  Returns the number
of `HummingbotApplication.main_application().stop()` requests issued (0 or 1)
and the stop actions forwarded to the executor orchestrator. -/
def check_executors_status (s : RunnerState) : Nat × List ExecutorAction :=
  let active_executors :=
    s.executors.filter (fun e => decide (e.status = RunnableStatus.RUNNING))
  if active_executors.isEmpty then
    (1, [])
  else
    let non_trading_executors := active_executors.filter (fun e => !e.is_trading)
    (0, non_trading_executors.map (fun e => ExecutorAction.stop e.controller_id e.id))

/-- An `ArbitrageExecutor` object as owned by the standalone `Xarby` strategy:
an identity plus the `is_closed` flag the cleanup loop reads. -/
structure ArbExecutor where
  eid : Nat
  is_closed : Bool
deriving DecidableEq

/-- The body of `Xarby.cleanup_arbitrages`, with CPython `for`-over-a-list
semantics made explicit: the iterator holds an index `j` into the *live* list;
`next` yields `active[j]` and advances to `j+1`; `list.remove(x)` deletes the
first element equal to `x`, shifting later elements down under the iterator. -/
def cleanupLoop (active closed : List ArbExecutor) (j : Nat) :
    List ArbExecutor × List ArbExecutor :=
  if h : j < active.length then
    let x := active.get ⟨j, h⟩
    if x.is_closed then
      cleanupLoop (active.erase x) (closed ++ [x]) (j + 1)
    else
      cleanupLoop active closed (j + 1)
  else
    (active, closed)
termination_by active.length - j
decreasing_by
  · have hx : active.get ⟨j, h⟩ ∈ active := active.get_mem j h
    have hlen : (active.erase (active.get ⟨j, h⟩)).length = active.length - 1 :=
      List.length_erase_of_mem hx
    simp only [hlen]
    omega
  · omega

/-- `Xarby.cleanup_arbitrages`: iterate over `active_buy_arbitrages`, moving
each visited closed executor to `closed_arbitrage_executors`.  Returns the
final `(active_buy_arbitrages, closed_arbitrage_executors)` pair. -/
def cleanup_arbitrages (active closed : List ArbExecutor) :
    List ArbExecutor × List ArbExecutor :=
  cleanupLoop active closed 0

/-! Concrete instantiations used to exercise the theorems below. -/

/-- A controller configuration matching the interactive defaults of
`ArbitrageControllerConfig`, with `position_size_quote` 100. -/
def configEx : ArbitrageControllerConfig :=
  { id := "ctrl-1"
    source_connector_name := "xrpl"
    source_trading_pair := "XRP-USD"
    dest_connector_name := "kucoin"
    dest_trading_pair := "XRP-USDC"
    position_size_quote := 100
    min_profitability := 1 / 1000
    target_max_executors := 1
    executor_refresh_time := 20 }

/-- Price 2 everywhere, ample balance 1000, host clock at 50. -/
def providerRich : MarketDataProvider :=
  { price := fun _ => 2
    available_balance := fun _ _ => 1000
    time := 50 }

/-- Price 2 everywhere, balance only 150, host clock at 50. -/
def providerPoor : MarketDataProvider :=
  { price := fun _ => 2
    available_balance := fun _ _ => 150
    time := 50 }

/-- Funds suffice (needed 200 ≤ 1000), empty snapshot, constructor succeeds. -/
def stateRich : ControllerState :=
  { config := configEx
    executors_info := []
    provider := providerRich
    mkOk := fun _ => true }

/-- Funds short (needed 200 > 150), empty snapshot, constructor succeeds. -/
def statePoor : ControllerState :=
  { config := configEx
    executors_info := []
    provider := providerPoor
    mkOk := fun _ => true }

/-- Ample funds but one inactive executor in the snapshot, so
`running_executors_count` is 1 and meets `target_max_executors` = 1. -/
def stateCapped : ControllerState :=
  { config := configEx
    executors_info := [{ id := "e0", timestamp := 0, is_active := false, is_trading := false }]
    provider := providerRich
    mkOk := fun _ => true }

/-- A runner that has already begun cashing out, past its deadline. -/
def runnerDone : RunnerState :=
  { cashing_out := true
    cash_out_time := some 10
    current_timestamp := 20
    controllers := [{ id := "c1", status := RunnableStatus.RUNNING, manual_kill_switch := false }]
    executors := [] }

/-- A cashing-out runner with one running-not-trading executor, one running
trading executor and one terminated executor. -/
def runnerBusy : RunnerState :=
  { cashing_out := true
    cash_out_time := some 10
    current_timestamp := 20
    controllers := []
    executors :=
      [{ id := "e1", controller_id := "c1", status := RunnableStatus.RUNNING, is_trading := false },
       { id := "e2", controller_id := "c1", status := RunnableStatus.RUNNING, is_trading := true },
       { id := "e3", controller_id := "c2", status := RunnableStatus.TERMINATED, is_trading := false }] }

/-! Theorems. -/

/-- Shared helper: the create proposal is `[]` or a singleton. -/
theorem create_actions_length_le_one (s : ControllerState) :
    (create_actions_proposal s).length ≤ 1 := by
  unfold create_actions_proposal
  split
  · split <;> simp
  · simp

/-- C1: `running_executors_count()` returns the number of executors in the
snapshot whose activity flag is false, i.e. it counts the executors that are
inactive per the host's `is_active` flag. -/
theorem running_executors_count_counts_inactive (s : ControllerState) :
    running_executors_count s =
      s.executors_info.countP (fun x => decide (x.is_active = false)) := by
  unfold running_executors_count
  rw [List.countP_eq_length_filter]
  have hp : (fun x : ExecutorInfo => decide (x.is_active = false)) =
      (fun x : ExecutorInfo => !x.is_active) := by
    funext x
    cases x.is_active <;> rfl
  rw [hp]

/-- C2 (code bug): one call of `cleanup_arbitrages` on an active list of two
closed executors moves only the first to the closed list — the iterator skips
the element shifted into the removed slot — contradicting the specified
"moves every executor with `is_closed=true`". -/
theorem cleanup_arbitrages_skips_consecutive_closed :
    cleanup_arbitrages
        [{ eid := 1, is_closed := true }, { eid := 2, is_closed := true }] [] =
      ([{ eid := 2, is_closed := true }], [{ eid := 1, is_closed := true }]) := by
  unfold cleanup_arbitrages
  rw [cleanupLoop]
  norm_num [List.erase]
  rw [cleanupLoop]
  norm_num

/-- C3: `get_executor_config()` is absent exactly on insufficient source-side
quote balance or a (caught) constructor failure; with sufficient balance and a
successful constructor it returns the config built from the source pair as
buying market, the destination pair as selling market, `position_size_quote`
as order amount, and the configured minimum profitability. -/
theorem get_executor_config_spec (s : ControllerState) :
    (get_executor_config s = none ↔
      (sourceQuoteBalance s < s.config.position_size_quote * sourcePrice s ∨
        s.mkOk (builtConfig s) = false))
    ∧ (s.config.position_size_quote * sourcePrice s ≤ sourceQuoteBalance s →
        s.mkOk (builtConfig s) = true →
        get_executor_config s = some (builtConfig s))
    ∧ (builtConfig s).buying_market =
        ConnectorPair.mk s.config.source_connector_name s.config.source_trading_pair
    ∧ (builtConfig s).selling_market =
        ConnectorPair.mk s.config.dest_connector_name s.config.dest_trading_pair
    ∧ (builtConfig s).order_amount = s.config.position_size_quote
    ∧ (builtConfig s).min_profitability = s.config.min_profitability := by
  refine ⟨?_, ?_, rfl, rfl, rfl, rfl⟩
  · unfold get_executor_config
    by_cases hb : s.config.position_size_quote * sourcePrice s > sourceQuoteBalance s
    · simp [hb]
    · cases hm : s.mkOk (builtConfig s) <;> simp [hb, hm]
  · intro h1 h2
    unfold get_executor_config
    rw [if_neg (not_lt.mpr h1), if_pos h2]

/-- C3 at concrete inputs: price 2, size 100 against balance 1000 yields the
built config; against balance 150 (needed 200) it is absent. -/
theorem get_executor_config_spec_witness :
    get_executor_config stateRich = some (builtConfig stateRich)
    ∧ get_executor_config statePoor = none :=
  ⟨(get_executor_config_spec stateRich).2.1
      (by norm_num [stateRich, configEx, providerRich, sourcePrice, sourceQuoteBalance,
        get_market_price, source_connector]) rfl,
   (get_executor_config_spec statePoor).1.mpr
      (Or.inl (by norm_num [statePoor, configEx, providerPoor, sourcePrice, sourceQuoteBalance,
        get_market_price, source_connector]))⟩

/-- C4: `create_actions_proposal()` is empty whenever
`running_executors_count()` meets `target_max_executors` (whatever the
balances), and in every case holds at most one action, each a create action
tagged with the owning controller's id. -/
theorem create_actions_proposal_spec (s : ControllerState) :
    (s.config.target_max_executors ≤ (running_executors_count s : ℚ) →
      create_actions_proposal s = [])
    ∧ (create_actions_proposal s).length ≤ 1
    ∧ (∀ a ∈ create_actions_proposal s,
        a = ExecutorAction.create (get_executor_config s) s.config.id) := by
  refine ⟨?_, create_actions_length_le_one s, ?_⟩
  · intro hcap
    unfold create_actions_proposal
    rw [if_neg (not_lt.mpr hcap)]
  · intro a ha
    unfold create_actions_proposal at ha
    split at ha
    · split at ha
      · simpa using ha
      · simp at ha
    · simp at ha

/-- C4 at a concrete input: one inactive snapshot entry against
`target_max_executors` = 1 yields no create action despite ample balance. -/
theorem create_actions_proposal_spec_witness :
    create_actions_proposal stateCapped = [] :=
  (create_actions_proposal_spec stateCapped).1
    (by
      have hc : running_executors_count stateCapped = 1 := rfl
      rw [hc]
      norm_num [stateCapped, configEx])

/-- C5: `executors_to_refresh()` emits exactly one stop action per snapshot
entry that is active, not trading, and strictly older than
`executor_refresh_time`; entries at or under the age threshold, inactive
entries and trading entries are never selected. -/
theorem executors_to_refresh_spec (s : ControllerState) :
    executors_to_refresh s =
      (s.executors_info.filter
        (fun x => x.is_active && !x.is_trading &&
          decide (s.provider.time - x.timestamp > s.config.executor_refresh_time))).map
        (fun e => ExecutorAction.stop s.config.id e.id)
    ∧ (∀ e ∈ s.executors_info.filter (refreshPred s),
        e.is_active = true ∧ e.is_trading = false ∧
          s.provider.time - e.timestamp > s.config.executor_refresh_time)
    ∧ (∀ e : ExecutorInfo,
        s.provider.time - e.timestamp ≤ s.config.executor_refresh_time →
          refreshPred s e = false) := by
  refine ⟨?_, ?_, ?_⟩
  · unfold executors_to_refresh
    have hp : refreshPred s =
        (fun x : ExecutorInfo => x.is_active && !x.is_trading &&
          decide (s.provider.time - x.timestamp > s.config.executor_refresh_time)) := by
      funext x
      unfold refreshPred
      cases x.is_active <;> cases x.is_trading <;> simp
    rw [hp]
  · intro e he
    rw [List.mem_filter] at he
    have hp := he.2
    unfold refreshPred at hp
    simp only [Bool.and_eq_true, Bool.not_eq_true', decide_eq_true_eq] at hp
    exact ⟨hp.1.2, hp.1.1, hp.2⟩
  · intro e h
    unfold refreshPred
    have hd : decide (s.provider.time - e.timestamp > s.config.executor_refresh_time)
        = false := decide_eq_false (not_lt.mpr h)
    rw [hd]
    simp

/-- C5 at a concrete input: with the host clock at 50 and threshold 20, an
active non-trading executor created at 30 sits exactly at the boundary
(age 20 = threshold) and is not selected. -/
theorem executors_to_refresh_spec_witness :
    refreshPred stateRich
      { id := "e2", timestamp := 30, is_active := true, is_trading := false } = false :=
  (executors_to_refresh_spec stateRich).2.2
    { id := "e2", timestamp := 30, is_active := true, is_trading := false }
    (by norm_num [stateRich, configEx, providerRich])

/-- C6: `determine_executor_actions()` is the concatenation of
`create_actions_proposal()` (0 or 1 actions) then `stop_actions_proposal()`,
so every create action precedes every stop action in the output. -/
theorem determine_executor_actions_order (s : ControllerState) :
    determine_executor_actions s = create_actions_proposal s ++ stop_actions_proposal s
    ∧ (create_actions_proposal s).length ≤ 1 :=
  ⟨rfl, create_actions_length_le_one s⟩

/-- C7: once `cashing_out` is true, `evaluate_cash_out_time()` leaves the
whole runner state unchanged (so the flag never reverts) and requests no
further controller stops, even past the deadline. -/
theorem evaluate_cash_out_time_sticky (s : RunnerState) (h : s.cashing_out = true) :
    evaluate_cash_out_time s = (s, []) := by
  unfold evaluate_cash_out_time
  simp [h]

/-- C7 at a concrete input: a cashing-out runner past its deadline with one
still-running controller is left untouched with no stop requests. -/
theorem evaluate_cash_out_time_sticky_witness :
    evaluate_cash_out_time runnerDone = (runnerDone, []) :=
  evaluate_cash_out_time_sticky runnerDone rfl

/-- C8: while cashing out, `check_executors_status()` requests the host
application stop exactly once iff no executor is `RUNNING` (and never more
than once); otherwise it emits exactly one stop action per running executor
that is not trading, and none for running executors that are trading. -/
theorem check_executors_status_spec (s : RunnerState) :
    ((check_executors_status s).1 = 1 ↔
      ∀ e ∈ s.executors, e.status ≠ RunnableStatus.RUNNING)
    ∧ (check_executors_status s).1 ≤ 1
    ∧ (check_executors_status s).2 =
      (s.executors.filter
        (fun e => !e.is_trading && decide (e.status = RunnableStatus.RUNNING))).map
        (fun e => ExecutorAction.stop e.controller_id e.id) := by
  simp only [check_executors_status]
  by_cases hemp :
      (s.executors.filter (fun e => decide (e.status = RunnableStatus.RUNNING))).isEmpty = true
  · have hnil := List.isEmpty_iff.mp hemp
    rw [List.filter_eq_nil_iff] at hnil
    rw [if_pos hemp]
    refine ⟨?_, ?_, ?_⟩
    · exact iff_of_true rfl (fun e he => by simpa using hnil e he)
    · exact le_refl 1
    · have hsub : (s.executors.filter
          (fun e => !e.is_trading && decide (e.status = RunnableStatus.RUNNING))) = [] := by
        rw [List.filter_eq_nil_iff]
        intro e he hp
        rw [Bool.and_eq_true] at hp
        exact hnil e he hp.2
      rw [hsub]
      rfl
  · rw [if_neg hemp]
    refine ⟨?_, ?_, ?_⟩
    · refine iff_of_false (by norm_num) ?_
      intro hall
      exact hemp (List.isEmpty_iff.mpr
        (List.filter_eq_nil_iff.mpr (fun e he => by simpa using hall e he)))
    · norm_num
    · rw [List.filter_filter]

/-- C8 at a concrete input: with one running-not-trading executor, one
running-trading executor and one terminated executor, exactly one stop action
is emitted, for the running-not-trading one. -/
theorem check_executors_status_spec_witness :
    (check_executors_status runnerBusy).2 = [ExecutorAction.stop "c1" "e1"] :=
  ((check_executors_status_spec runnerBusy).2.2).trans rfl

/-- C9: the decimal-field validator maps the empty string to the absent
value, any other string to the decimal parsed from it, and passes an
already-numeric value through unchanged. -/
theorem validate_decimal_fields_spec (parse : String → Option ℚ) :
    validate_decimal_fields parse (FieldValue.str "") = Except.ok none
    ∧ (∀ v q, v ≠ "" → parse v = some q →
        validate_decimal_fields parse (FieldValue.str v) =
          Except.ok (some (FieldValue.dec q)))
    ∧ (∀ q : ℚ, validate_decimal_fields parse (FieldValue.dec q) =
        Except.ok (some (FieldValue.dec q))) := by
  refine ⟨rfl, ?_, fun q => rfl⟩
  intro v q hv hp
  simp only [validate_decimal_fields]
  rw [if_neg hv, hp]

/-- C9 at a concrete input: the non-empty string "5" parses to the decimal 5. -/
theorem validate_decimal_fields_spec_witness :
    validate_decimal_fields (fun _ => some 5) (FieldValue.str "5") =
      Except.ok (some (FieldValue.dec 5)) :=
  (validate_decimal_fields_spec (fun _ => some 5)).2.1 "5" 5 (by simp) rfl

/-- C10: within one cycle the environment is fixed, so the second
`get_executor_config()` call made while building the create action returns
the same value that was checked for presence: the emitted action carries that
same non-absent config. -/
theorem create_action_payload_consistent (s : ControllerState)
    (cfg : ArbitrageExecutorConfig)
    (hcfg : get_executor_config s = some cfg)
    (hcap : (running_executors_count s : ℚ) < s.config.target_max_executors) :
    create_actions_proposal s = [ExecutorAction.create (some cfg) s.config.id] := by
  unfold create_actions_proposal
  rw [if_pos hcap, hcfg]

/-- C10 at a concrete input: with ample balance and an empty snapshot the
proposal is exactly one create action carrying the built config. -/
theorem create_action_payload_consistent_witness :
    create_actions_proposal stateRich =
      [ExecutorAction.create (some (builtConfig stateRich)) stateRich.config.id] :=
  create_action_payload_consistent stateRich (builtConfig stateRich)
    (by
      have hb : ¬ (stateRich.config.position_size_quote * sourcePrice stateRich >
          sourceQuoteBalance stateRich) := by
        norm_num [stateRich, configEx, providerRich, sourcePrice, sourceQuoteBalance,
          get_market_price, source_connector]
      unfold get_executor_config
      rw [if_neg hb, if_pos (show stateRich.mkOk (builtConfig stateRich) = true from rfl)])
    (by
      have hc : running_executors_count stateRich = 0 := rfl
      rw [hc]
      norm_num [stateRich, configEx])
